import Mathlib

/-!
A verification development for the rtp-mini repository (a Node.js
implementation of the AppleMIDI / RTP-MIDI protocol).  The definitions below
are a shallow embedding of the JavaScript source: buffers are lists of bytes
(natural numbers below 256), JavaScript numbers holding integers are `Int` or
`Nat`, `null`-able numeric fields are `Option Int` / `Option Nat`, and each
method that the claims touch is re-expressed as a pure function from its input
state to its output state together with the messages it sends.
-/

set_option maxRecDepth 4000

/-! ## Byte-buffer primitives (Node `Buffer` reads and writes)

A buffer is a `List Nat` of byte values.  The readers below model the Node
`Buffer` accessors at in-bounds offsets (every use in the theorems is
in-bounds; Node raises on out-of-bounds access, which no claim exercises). -/

/-- Model of `buffer.readUInt8(i)`. -/
def readUInt8 (b : List Nat) (i : Nat) : Nat := b.getD i 0

/-- Model of `buffer.readUInt16BE(i)`. -/
def readUInt16BE (b : List Nat) (i : Nat) : Nat :=
  256 * readUInt8 b i + readUInt8 b (i + 1)

/-- Model of `buffer.readUInt32BE(i)`. -/
def readUInt32BE (b : List Nat) (i : Nat) : Nat :=
  16777216 * readUInt8 b i + 65536 * readUInt8 b (i + 1) +
    256 * readUInt8 b (i + 2) + readUInt8 b (i + 3)

/-- The two bytes written by `buffer.writeUInt16BE(n, i)` (big endian; Node
requires `n < 2 ^ 16`, which the theorems assume where it matters). -/
def u16BE (n : Nat) : List Nat := [n / 256 % 256, n % 256]

/-- The four bytes written by `buffer.writeUInt32BE(n, i)` (big endian; Node
requires `n < 2 ^ 32`, which the theorems assume where it matters). -/
def u32BE (n : Nat) : List Nat :=
  [n / 16777216 % 256, n / 65536 % 256, n / 256 % 256, n % 256]

/-- Model of `buffer.slice(i, j)`. -/
def bufSlice (b : List Nat) (i j : Nat) : List Nat := (b.drop i).take (j - i)

/-! ## ControlMessage.js -/

namespace ControlMessage

/-- The seven known AppleMIDI command names (`byteToCommand` values,
ControlMessage.js lines 10-18).  The `end` command is written `endStream`
because `end` is reserved in Lean. -/
inductive Command where
  | invitation
  | invitation_rejected
  | invitation_accepted
  | endStream
  | synchronization
  | receiver_feedback
  | bitrate_receive_limit
deriving DecidableEq, Repr

/-- ControlMessage.js lines 10-18: the command code to command name map;
`none` models a JavaScript `undefined` lookup result. -/
def byteToCommand (n : Nat) : Option Command :=
  if n = 0x494E then some .invitation
  else if n = 0x4E4F then some .invitation_rejected
  else if n = 0x4F4B then some .invitation_accepted
  else if n = 0x4259 then some .endStream
  else if n = 0x434B then some .synchronization
  else if n = 0x5253 then some .receiver_feedback
  else if n = 0x524C then some .bitrate_receive_limit
  else none

/-- ControlMessage.js lines 21-27: the reverse map from command name to
command code. -/
def commandToByte : Command → Nat
  | .invitation => 0x494E
  | .invitation_rejected => 0x4E4F
  | .invitation_accepted => 0x4F4B
  | .endStream => 0x4259
  | .synchronization => 0x434B
  | .receiver_feedback => 0x5253
  | .bitrate_receive_limit => 0x524C

/-- A `ControlMessage` instance.  Field defaults are the constructor values
(ControlMessage.js lines 42-48); `name` is the UTF-8 byte sequence of the
name string; `Option` fields default to `none`, modelling JavaScript fields
that the constructor leaves `undefined`. -/
structure Msg where
  start : Nat := 0xFFFF
  isValid : Bool := true
  version : Nat := 2
  name : List Nat := []
  command : Option Command := none
  token : Option Nat := none
  ssrc : Option Nat := none
  count : Option Nat := none
  padding : Option Nat := none
  timestamp1 : List Nat := []
  timestamp2 : List Nat := []
  timestamp3 : List Nat := []
  sequenceNumber : Option Nat := none
deriving DecidableEq, Repr

/-- ControlMessage.js lines 55-97, `parseBuffer`.  Unknown commands fall to
the `default` branch, which leaves every field (including `isValid := true`)
at its constructor value; only a wrong magic clears `isValid`.  Note the
shift in the `padding` read: the source writes `<< 0xF0`, and JavaScript
shift counts are taken modulo 32, so the effective shift is 16. -/
def parseBuffer (buffer : List Nat) : Msg :=
  let start := readUInt16BE buffer 0
  if start ≠ 0xFFFF then
    { start := start, isValid := false }
  else
    let command := byteToCommand (readUInt16BE buffer 2)
    match command with
    | some .invitation | some .invitation_accepted
    | some .invitation_rejected | some .endStream =>
      { start := start, command := command,
        version := readUInt32BE buffer 4,
        token := some (readUInt32BE buffer 8),
        ssrc := some (readUInt32BE buffer 12),
        name := buffer.drop 16 }
    | some .synchronization =>
      { start := start, command := command,
        ssrc := some (readUInt32BE buffer 4),
        count := some (readUInt8 buffer 8),
        padding := some ((readUInt8 buffer 9) * 65536 + readUInt16BE buffer 10),
        timestamp1 := bufSlice buffer 12 20,
        timestamp2 := bufSlice buffer 20 28,
        timestamp3 := bufSlice buffer 28 36 }
    | some .receiver_feedback =>
      { start := start, command := command,
        ssrc := some (readUInt32BE buffer 4),
        sequenceNumber := some (readUInt16BE buffer 8) }
    | _ => { start := start, command := command }

/-- The timestamp copy in `generateBuffer` (`this.timestampN.copy(buffer, o)`
into a zero-filled region of eight bytes).  Faithful whenever the timestamp
buffer holds at most eight bytes; every call site in the repository uses
exactly eight. -/
def copyTS (l : List Nat) : List Nat :=
  l.take 8 ++ List.replicate (8 - (l.take 8).length) 0

/- ControlMessage.js lines 103-156, `generateBuffer`, as the byte list it
produces.  For the invitation family the buffer is `17 + |name|` bytes: the
final byte is zero either by the explicit terminator write (line 121) or,
for `end`, because `Buffer.alloc` zero-fills.  The `default` branch returns
the empty buffer (line 150), which is what `bitrate_receive_limit` hits.
JavaScript `this.padding >>> 0xF0` shifts by `0xF0 % 32 = 16`, and
`this.padding & 0x00FFFF` is `padding % 2 ^ 16`.  `Option` fields are read
with `getD 0`; the claims only exercise messages whose relevant fields are
set, matching the call sites. -/

/-- The shared invitation / invitation_accepted / invitation_rejected / end
layout of `generateBuffer` (ControlMessage.js lines 108-123). -/
def invitationFamilyBuffer (m : Msg) (c : Command) : List Nat :=
  u16BE m.start ++ u16BE (commandToByte c) ++
    u32BE m.version ++ u32BE ((m.token).getD 0) ++ u32BE ((m.ssrc).getD 0) ++
    m.name ++ [0]

def generateBuffer (m : Msg) : List Nat :=
  match m.command with
  | some .invitation => invitationFamilyBuffer m .invitation
  | some .invitation_accepted => invitationFamilyBuffer m .invitation_accepted
  | some .invitation_rejected => invitationFamilyBuffer m .invitation_rejected
  | some .endStream => invitationFamilyBuffer m .endStream
  | some .synchronization =>
    u16BE m.start ++ u16BE (commandToByte .synchronization) ++
      u32BE ((m.ssrc).getD 0) ++ [(m.count).getD 0] ++
      [(m.padding).getD 0 / 65536] ++ u16BE ((m.padding).getD 0 % 65536) ++
      copyTS m.timestamp1 ++ copyTS m.timestamp2 ++ copyTS m.timestamp3
  | some .receiver_feedback =>
    u16BE m.start ++ u16BE (commandToByte .receiver_feedback) ++
      u32BE ((m.ssrc).getD 0) ++ u16BE ((m.sequenceNumber).getD 0) ++ [0, 0]
  | _ => []

end ControlMessage

/-! ## Stream.js -/

namespace Stream

/-- Stream.js lines 44-48, `writeUInt64BE`: the 32-bit value stored in bytes
4 to 7 (bytes 0 to 3 are always zero).  The source formats the value as a
zero-padded 16-digit hex string and parses the digits from position 8 on.
For `0 ≤ v < 2 ^ 64` that is `v % 2 ^ 32`.  For negative `v` the sign
character of `v.toString(16)` lands inside or left of the parsed slice:
with `|v| < 16 ^ 6` the parsed prefix is all zeros, giving 0; with
`16 ^ 6 ≤ |v| < 16 ^ 7` the slice starts with the sign, `parseInt` yields a
negative number and Node `writeUInt32BE` raises (unreachable in the theorems
below, modelled as 0); with `|v| ≥ 16 ^ 7` the sign is cut off and the low
eight hex digits parse as `|v| % 2 ^ 32`. -/
def writeUInt64Low (v : Int) : Nat :=
  if 0 ≤ v then v.toNat % 4294967296
  else if v.natAbs < 16777216 then 0
  else if v.natAbs < 268435456 then 0
  else v.natAbs % 4294967296

/-- The eight-byte buffer produced by `writeUInt64BE(buffer, v)`. -/
def writeTS (v : Int) : List Nat := [0, 0, 0, 0] ++ u32BE (writeUInt64Low v)

/-- Stream.js lines 56-58, `readUInt64BE`: only the low 32 bits (bytes 4 to
7) of the eight-byte timestamp are read. -/
def readUInt64BE (b : List Nat) : Nat := readUInt32BE b 4

/-- JavaScript `Math.round` on a value that is already an exact integer is
the identity; both operands of the rounded subtraction in the `count = 1`
branch are 32-bit buffer reads. -/
def mathRound (v : Int) : Int := v

/-- JavaScript truthiness of a `null`-able numeric field: `null` and `0` are
falsy, every other number is truthy. -/
def truthy : Option Int → Bool
  | none => false
  | some v => v ≠ 0

/-- Numeric coercion of a `null`-able field in arithmetic: `null` coerces
to 0. -/
def jsNum : Option Int → Int
  | none => 0
  | some v => v

/-- The slice of a stream's mutable state that the clock-synchronization
exchange reads and writes (Stream.js lines 81 and 86: both fields start
`null`). -/
structure SyncState where
  latency : Option Int := none
  timeDifference : Option Int := none
deriving DecidableEq, Repr

/-- An incoming synchronization control message as the handler sees it:
`count` plus the three eight-byte timestamp buffers. -/
structure SyncMsgIn where
  count : Int
  timestamp1 : List Nat
  timestamp2 : List Nat
  timestamp3 : List Nat
deriving DecidableEq, Repr

/-- The outgoing `answer` control message built by `sendSynchronization`. -/
structure SyncOut where
  count : Int
  ssrc : Nat
  token : Option Nat
  timestamp1 : List Nat
  timestamp2 : List Nat
  timestamp3 : List Nat
deriving DecidableEq, Repr

/-- Stream.js lines 337-391: one pass of `sendSynchronization` up to and
excluding the final send-or-recurse decision.  `now` models
`this.session.now()`; the result is the updated latency / timeDifference
slice and the `answer` message.  The `count = -1` (no incoming message),
`0`, and `1` branches write fresh timestamps; the `count = 1` branch is the
only one that assigns `this.latency` and `this.timeDifference` (lines
372-378); the `count = 2` and default branches change nothing.

Aliasing in the `count = 1` branch: line 345 copies the incoming
`timestamp3` Buffer by reference into `answer.timestamp3`, and line 371
overwrites that shared buffer with `now` (all eight bytes: `writeUInt64BE`
zeroes bytes 0-3 and stores the low 32 bits of `now` in bytes 4-7) before
lines 372-378 read `incomingSyncMessage.timestamp3` back.  The reads
therefore see `now`, not the wire value of `ts3`; the model reflects this
by computing latency and timeDifference from the freshly written buffer
`t3w`.  `timestamp1` and `timestamp2` are aliased too but not written in
this branch, so their reads see the wire values. -/
def sendSynchronizationStep (now : Nat) (ssrc : Nat) (token : Option Nat)
    (st : SyncState) (incoming : Option SyncMsgIn) : SyncState × SyncOut :=
  let count : Int := match incoming with | some m => m.count | none => -1
  let t1 := match incoming with | some m => m.timestamp1 | none => List.replicate 8 0
  let t2 := match incoming with | some m => m.timestamp2 | none => List.replicate 8 0
  let t3 := match incoming with | some m => m.timestamp3 | none => List.replicate 8 0
  if count = -1 then
    (st, { count := count + 1, ssrc := ssrc, token := token,
           timestamp1 := writeTS now,
           timestamp2 := if truthy st.timeDifference then
               writeTS (now - jsNum st.timeDifference) else writeTS 0,
           timestamp3 := if truthy st.latency then
               writeTS (now + jsNum st.latency) else writeTS 0 })
  else if count = 0 then
    (st, { count := count + 1, ssrc := ssrc, token := token,
           timestamp1 := t1,
           timestamp2 := writeTS now,
           timestamp3 := writeTS (now - jsNum st.timeDifference) })
  else if count = 1 then
    let t3w := writeTS now
    let latency : Int := (readUInt64BE t3w : Int) - readUInt64BE t1
    let timeDifference : Int :=
      mathRound ((readUInt64BE t3w : Int) - readUInt64BE t2) - latency
    ({ latency := some latency, timeDifference := some timeDifference },
     { count := count + 1, ssrc := ssrc, token := token,
       timestamp1 := t1, timestamp2 := t2, timestamp3 := t3w })
  else
    (st, { count := count + 1, ssrc := ssrc, token := token,
           timestamp1 := t1, timestamp2 := t2, timestamp3 := t3 })

/-- Stream.js lines 337-398, `sendSynchronization`, with the final decision
of lines 393-397 unfolded: if `answer.count < 3` the answer is sent to
`rinfo2`; otherwise the method calls itself with no incoming message (line
396), whose answer always has `count = 0 < 3`, so the recursion stops after
one step.  `now` is the clock read of the outer call and `now2` the clock
read of that inner call; the returned list holds the messages sent. -/
def sendSynchronization (now now2 : Nat) (ssrc : Nat) (token : Option Nat)
    (st : SyncState) (incoming : Option SyncMsgIn) : SyncState × List SyncOut :=
  let (st1, answer) := sendSynchronizationStep now ssrc token st incoming
  if answer.count < 3 then (st1, [answer])
  else
    let (st2, answer2) := sendSynchronizationStep now2 ssrc token st1 none
    if answer2.count < 3 then (st2, [answer2]) else (st2, [])

/-- The slice of a stream's mutable state that `handleMidiMessage` and
`sendReceiverFeedback` touch (Stream.js lines 78-80 and 84: the sequence
counters start at the sentinel -1, the lost list empty, the feedback timer
unarmed). -/
structure RecvState where
  firstReceivedSequenceNumber : Int := -1
  lastReceivedSequenceNumber : Int := -1
  lostSequenceNumbers : List Int := []
  feedbackTimerArmed : Bool := false
deriving DecidableEq, Repr

/-- The push loop of Stream.js lines 156-158,
`for (i = last + 1; i < seq; i += 1) lost.push(i)`: the integers from `a`
(inclusive) up to `b` (exclusive), in ascending order. -/
def pushLoop (a b : Int) : List Int :=
  (List.range (b - a).toNat).map (fun (i : Nat) => a + (i : Int))

/-- Stream.js lines 153-176, `handleMidiMessage`, restricted to the state it
mutates.  `seq` is the parsed 16-bit RTP sequence number of the message.
The per-command `message` emissions (lines 166-171) read but never write the
stream state and are omitted; lines 174-175 re-arm the receiver-feedback
timer on every call. -/
def handleMidiMessage (st : RecvState) (seq : Int) : RecvState :=
  if st.firstReceivedSequenceNumber ≠ -1 then
    { st with
      lostSequenceNumbers :=
        st.lostSequenceNumbers ++ pushLoop (st.lastReceivedSequenceNumber + 1) seq,
      lastReceivedSequenceNumber := seq,
      feedbackTimerArmed := true }
  else
    { st with
      firstReceivedSequenceNumber := seq,
      lastReceivedSequenceNumber := seq,
      feedbackTimerArmed := true }

/-- The `receiver_feedback` control message sent by `sendReceiverFeedback`. -/
structure FeedbackOut where
  ssrc : Nat
  sequenceNumber : Int
deriving DecidableEq, Repr

/-- Stream.js lines 444-454, `sendReceiverFeedback`: logs the lost list when
it is nonempty, then sends a `receiver_feedback` message carrying
`this.lastReceivedSequenceNumber`.  The method performs no assignment, so
the stream state is returned unchanged; in particular `lostSequenceNumbers`
is never cleared anywhere in Stream.js after its initialisation. -/
def sendReceiverFeedback (st : RecvState) (sessionSsrc : Nat) :
    RecvState × FeedbackOut :=
  (st, { ssrc := sessionSsrc, sequenceNumber := st.lastReceivedSequenceNumber })

/-- The slice of a stream's mutable state that `sendMessage` touches
(Stream.js line 77: `lastSentSequenceNr` starts at a random 16-bit value). -/
structure SendState where
  latency : Option Int := none
  timeDifference : Option Int := none
  lastSentSequenceNr : Nat
deriving DecidableEq, Repr

/-- The outbound RTP-MIDI message handed to the session by `sendMessage`. -/
structure MidiOut where
  ssrc : Nat
  sequenceNumber : Nat
deriving DecidableEq, Repr

/-- Stream.js lines 461-474, `sendMessage`: if `latency` or `timeDifference`
is still `null` the method returns at once (line 463), before any state is
touched; otherwise it increments `lastSentSequenceNr` modulo `2 ^ 16` and
hands the message to the session. -/
def sendMessage (st : SendState) (sessionSsrc : Nat) :
    SendState × Option MidiOut :=
  if st.latency = none ∨ st.timeDifference = none then
    (st, none)
  else
    let seq := (st.lastSentSequenceNr + 1) % 0x10000
    ({ st with lastSentSequenceNr := seq },
     some { ssrc := sessionSsrc, sequenceNumber := seq })

end Stream

namespace Stream

/-- A remote address and port pair (`rinfo`). -/
structure RInfo where
  address : Nat
  port : Nat
deriving DecidableEq, Repr

/-- The slice of a stream's mutable state that the invitation handlers touch
(Stream.js lines 72-87: `token`, `ssrc`, `rinfo1`, `rinfo2` start `null`,
`name` empty, `isConnected` false). -/
structure ConnState where
  token : Option Nat := none
  ssrc : Option Nat := none
  rinfo1 : Option RInfo := none
  rinfo2 : Option RInfo := none
  name : List Nat := []
  isConnected : Bool := false
deriving DecidableEq, Repr

/-- The events a stream emits while handling an invitation message. -/
inductive StreamEvent where
  | connected
  | established
deriving DecidableEq, Repr

/-- The outcome of an invitation handler: the updated state, the events
emitted, and the addresses invitations / acceptances were sent to. -/
structure ConnResult where
  state : ConnState
  events : List StreamEvent := []
  invitationsSentTo : List RInfo := []
  acceptancesSentTo : List RInfo := []
deriving DecidableEq, Repr

/-- Stream.js lines 183-222, `handleInvitationAccepted`.  First branch
(`rinfo1 === null`, lines 184-197): store the peer name and SSRC, set
`rinfo1`, send a fresh invitation to the data port (`rinfo.port + 1`), set
`isConnected = true` and emit `connected` — note that `rinfo2` is still
untouched here.  Second branch (`rinfo2 === null`, lines 198-221): emit
`established`, set `rinfo2`, and start the synchronization timer (the timer
machinery is outside this state slice).  Otherwise: no state change. -/
def handleInvitationAccepted (st : ConnState) (msg : ControlMessage.Msg)
    (rinfo : RInfo) : ConnResult :=
  if st.rinfo1 = none then
    { state := { st with
        name := msg.name,
        ssrc := msg.ssrc,
        rinfo1 := some rinfo,
        isConnected := true },
      events := [.connected],
      invitationsSentTo := [{ address := rinfo.address, port := rinfo.port + 1 }] }
  else if st.rinfo2 = none then
    { state := { st with rinfo2 := some rinfo },
      events := [.established] }
  else
    { state := st }

/-- Stream.js lines 243-258, `handleInvitation`.  First branch
(`rinfo1 === null`, lines 244-249): record the control-channel peer and its
token, name and SSRC.  Second branch (`rinfo2 === null`, lines 250-255):
record the data-channel peer, set `isConnected = true` and emit `connected`.
In every case an `invitation_accepted` is sent back to the sender (line
257). -/
def handleInvitation (st : ConnState) (msg : ControlMessage.Msg)
    (rinfo : RInfo) : ConnResult :=
  if st.rinfo1 = none then
    { state := { st with
        rinfo1 := some rinfo,
        token := msg.token,
        name := msg.name,
        ssrc := msg.ssrc },
      acceptancesSentTo := [rinfo] }
  else if st.rinfo2 = none then
    { state := { st with rinfo2 := some rinfo, isConnected := true },
      events := [.connected],
      acceptancesSentTo := [rinfo] }
  else
    { state := st, acceptancesSentTo := [rinfo] }

end Stream

/-! ## Session (src/index.js, `Session.handleMessage`) -/

namespace Session

/-- The identity fields of a stream that the control-message demultiplexer
compares against (`streamItem.ssrc`, `streamItem.token`); both are `null`
until the handshake fills them in. -/
structure StreamIds where
  ssrc : Option Nat := none
  token : Option Nat := none
deriving DecidableEq, Repr

/-- The predicate of the `streams.find` call in `Session.handleMessage`
(index.js lines 210-213): strict equality `===` holds only when both sides
are the same number.  A stream field is `null` or a number and a message
field is `undefined` or a number; `null === undefined` is false, so the
comparison succeeds only when both sides are present and equal. -/
def ctrlMatches (s : StreamIds) (m : ControlMessage.Msg) : Bool :=
  (match s.ssrc, m.ssrc with
   | some a, some b => a = b
   | _, _ => false) ||
  (match s.token, m.token with
   | some a, some b => a = b
   | _, _ => false)

/-- Where the control branch of `Session.handleMessage` delivers a parsed
message. -/
inductive CtrlDelivery where
  | existing (s : StreamIds)
  | created
  | dropped
deriving DecidableEq, Repr

/-- index.js lines 208-225: the control branch of `Session.handleMessage`
for a message whose `isValid` is true.  A matching stream receives the
message; with no match, an `invitation` creates a new stream; any other
unmatched message is delivered to no stream. -/
def dispatchControl (streams : List StreamIds) (m : ControlMessage.Msg) :
    CtrlDelivery :=
  match streams.find? (fun s => ctrlMatches s m) with
  | some s => .existing s
  | none =>
    if m.command = some .invitation then .created else .dropped

end Session

/-! ## MidiMessage.js -/

namespace MidiMessage

/-- MidiMessage.js lines 379-398: the bytes that `generateBuffer` emits for
one delta-time value `d` (already `Math.round`-ed; the claims assume
`d < 2 ^ 31`, under which the JavaScript 32-bit shifts agree with the
natural-number shifts used here).  A byte is emitted for the 21-, 14- and
7-bit groups only when `d` reaches the thresholds `0x7f7f7f`, `0x7f7f` and
`0x7f` respectively, each with the continuation bit `0x80`; the final byte
carries the low seven bits.  The same thresholds drive the length
computation of lines 294-307. -/
def encodeDeltaTime (d : Nat) : List Nat :=
  (if 0x7f7f7f ≤ d then [0x80 ||| (0x7f &&& (d >>> 21))] else []) ++
    (if 0x7f7f ≤ d then [0x80 ||| (0x7f &&& (d >>> 14))] else []) ++
    (if 0x7f ≤ d then [0x80 ||| (0x7f &&& (d >>> 7))] else []) ++
    [0x7f &&& d]

end MidiMessage

/-! ## Claims -/

/-! Reading back a freshly written timestamp buffer. -/

lemma writeUInt64Low_lt (v : Int) : Stream.writeUInt64Low v < 4294967296 := by
  unfold Stream.writeUInt64Low
  split_ifs <;> omega

lemma readUInt64BE_writeTS (v : Int) :
    Stream.readUInt64BE (Stream.writeTS v) = Stream.writeUInt64Low v := by
  have hread : Stream.readUInt64BE (Stream.writeTS v) =
      16777216 * (Stream.writeUInt64Low v / 16777216 % 256) +
        65536 * (Stream.writeUInt64Low v / 65536 % 256) +
        256 * (Stream.writeUInt64Low v / 256 % 256) +
        Stream.writeUInt64Low v % 256 := rfl
  have hlt := writeUInt64Low_lt v
  rw [hread]
  omega

lemma writeUInt64Low_coe (n : Nat) (h : n < 4294967296) :
    Stream.writeUInt64Low (n : Int) = n := by
  unfold Stream.writeUInt64Low
  rw [if_pos (by omega)]
  omega

/-- C1 counterexample: the claim says the `count = 1` handler computes
`latency = ts3 - ts1` from the timestamps read out of the incoming message
— in particular `latency = 10` for `ts1 = 1000`, `ts3 = 1010`.  It does
not: `answer.timestamp3` aliases the incoming `timestamp3` buffer and line
371 overwrites it with `now` before lines 372-378 read it back, so with a
local clock of `now = 7` the code computes `latency = 7 - 1000 = -993`,
not 10. -/
theorem claim_C1_counterexample :
    (Stream.sendSynchronization 7 8 1 (some 2) {}
        (some ⟨1, [0,0,0,0,0,0,3,232], [0,0,0,0,0,0,19,136],
          [0,0,0,0,0,0,3,242]⟩)).1.latency ≠ some 10 ∧
    (Stream.sendSynchronization 7 8 1 (some 2) {}
        (some ⟨1, [0,0,0,0,0,0,3,232], [0,0,0,0,0,0,19,136],
          [0,0,0,0,0,0,3,242]⟩)).1.latency = some (-993) := by
  constructor <;> decide

/-- C1 amended: on handling an incoming synchronization message with
`count = 1`, `sendSynchronization` sets `latency` to `now - ts1` and
`timeDifference` to `round (now - ts2) - latency`, which simplifies to
`ts1 - ts2` — where `ts1`, `ts2` are the 64-bit timestamps read from the
incoming message (low 32 bits) and `now` is the local clock at the moment
of handling.  The incoming `ts3` is never used: `answer.timestamp3` aliases
that buffer and is overwritten with `now` (line 371) before the reads of
lines 372-378.  (`session.now()` is reduced modulo `0xffffffff`, so
`now < 2 ^ 32` always holds at the call site.) -/
theorem claim_C1 (now now2 ssrc : Nat) (token : Option Nat)
    (st : Stream.SyncState) (m : Stream.SyncMsgIn) (h : m.count = 1)
    (hnow : now < 4294967296) :
    (Stream.sendSynchronization now now2 ssrc token st (some m)).1 =
      { latency := some ((now : Int) - Stream.readUInt64BE m.timestamp1),
        timeDifference := some ((Stream.readUInt64BE m.timestamp1 : Int) -
          Stream.readUInt64BE m.timestamp2) } := by
  have hw := writeUInt64Low_coe now hnow
  simp only [Stream.sendSynchronization, Stream.sendSynchronizationStep, h,
    readUInt64BE_writeTS, hw, Stream.mathRound]
  norm_num [Stream.SyncState.mk.injEq]

/-- C1 witness: with incoming `ts1 = 1000`, `ts2 = 5000` and a local clock
reading `now = 1010` at the moment of handling, the code computes
`latency = 1010 - 1000 = 10` and `timeDifference = 1000 - 5000 = -4000`. -/
theorem claim_C1_witness :
    (Stream.sendSynchronization 1010 8 1 (some 2) {}
        (some ⟨1, [0,0,0,0,0,0,3,232], [0,0,0,0,0,0,19,136],
          [0,0,0,0,0,0,3,242]⟩)).1.latency = some 10 ∧
    (Stream.sendSynchronization 1010 8 1 (some 2) {}
        (some ⟨1, [0,0,0,0,0,0,3,232], [0,0,0,0,0,0,19,136],
          [0,0,0,0,0,0,3,242]⟩)).1.timeDifference = some (-4000) := by
  have h := claim_C1 1010 8 1 (some 2) {}
    ⟨1, [0,0,0,0,0,0,3,232], [0,0,0,0,0,0,19,136], [0,0,0,0,0,0,3,242]⟩ rfl
    (by norm_num)
  exact ⟨by rw [h]; rfl, by rw [h]; rfl⟩

/-- C3: if `latency` or `timeDifference` is `null`, `sendMessage` returns
without sending anything and without modifying any stream state; in
particular `lastSentSequenceNr` is unchanged. -/
theorem claim_C3 (st : Stream.SendState) (ssrc : Nat)
    (h : st.latency = none ∨ st.timeDifference = none) :
    Stream.sendMessage st ssrc = (st, none) := by
  simp [Stream.sendMessage, h]

/-- C3 witness: a stream with unknown latency and `lastSentSequenceNr = 100`
drops the message and keeps its state. -/
theorem claim_C3_witness :
    Stream.sendMessage ⟨none, some 5, 100⟩ 1 = (⟨none, some 5, 100⟩, none) :=
  claim_C3 ⟨none, some 5, 100⟩ 1 (Or.inl rfl)

/-- C4 counterexample: the claim says that whenever `isConnected` becomes
true (and `connected` is emitted), `rinfo1` and `rinfo2` are both already
non-null, on the initiator path too.  On a fresh stream,
`handleInvitationAccepted` (the initiator path, first acceptance) sets
`isConnected = true` and emits `connected` while `rinfo2` is still null. -/
theorem claim_C4_counterexample :
    (Stream.handleInvitationAccepted {}
        { command := some .invitation_accepted, ssrc := some 5, name := [66] }
        ⟨1, 5004⟩).state.isConnected = true ∧
    (Stream.handleInvitationAccepted {}
        { command := some .invitation_accepted, ssrc := some 5, name := [66] }
        ⟨1, 5004⟩).state.rinfo2 = none ∧
    Stream.StreamEvent.connected ∈
      (Stream.handleInvitationAccepted {}
        { command := some .invitation_accepted, ssrc := some 5, name := [66] }
        ⟨1, 5004⟩).events := by
  refine ⟨rfl, rfl, ?_⟩
  decide

/-- C4 amended: on the acceptor path (`handleInvitation`) the claim holds —
whenever `isConnected` turns from false to true, `rinfo1` and `rinfo2` are
both non-null.  On the initiator path, however, `handleInvitationAccepted`
on a stream with `rinfo1` null sets `isConnected = true` and emits
`connected` with `rinfo2` left as it was (null on a fresh stream); the
stream only learns `rinfo2` later, on the second acceptance. -/
theorem claim_C4 :
    (∀ (st : Stream.ConnState) (m : ControlMessage.Msg) (r : Stream.RInfo),
      st.isConnected = false →
      (Stream.handleInvitation st m r).state.isConnected = true →
      (Stream.handleInvitation st m r).state.rinfo1.isSome ∧
        (Stream.handleInvitation st m r).state.rinfo2.isSome) ∧
    (∀ (st : Stream.ConnState) (m : ControlMessage.Msg) (r : Stream.RInfo),
      st.rinfo1 = none →
      (Stream.handleInvitationAccepted st m r).state.isConnected = true ∧
        (Stream.handleInvitationAccepted st m r).state.rinfo2 = st.rinfo2 ∧
        Stream.StreamEvent.connected ∈
          (Stream.handleInvitationAccepted st m r).events) := by
  constructor
  · intro st m r hconn htrue
    unfold Stream.handleInvitation at *
    by_cases h1 : st.rinfo1 = none
    · simp [h1, hconn] at htrue
    · by_cases h2 : st.rinfo2 = none
      · simp [h1, h2] at htrue ⊢
        exact Option.isSome_iff_ne_none.mpr h1
      · simp [h1, h2, hconn] at htrue
  · intro st m r h1
    simp [Stream.handleInvitationAccepted, h1]

/-- C4 witness: both parts of the amended claim at concrete inputs — the
acceptor path connecting on the second invitation (both peers recorded),
and the initiator path connecting on the first acceptance. -/
theorem claim_C4_witness :
    ((Stream.handleInvitation
        { rinfo1 := some ⟨1, 5004⟩ }
        { command := some .invitation, ssrc := some 5, name := [66] }
        ⟨1, 5005⟩).state.rinfo1.isSome ∧
      (Stream.handleInvitation
        { rinfo1 := some ⟨1, 5004⟩ }
        { command := some .invitation, ssrc := some 5, name := [66] }
        ⟨1, 5005⟩).state.rinfo2.isSome) ∧
    ((Stream.handleInvitationAccepted {}
        { command := some .invitation_accepted, ssrc := some 5, name := [66] }
        ⟨1, 5004⟩).state.isConnected = true ∧
      (Stream.handleInvitationAccepted {}
        { command := some .invitation_accepted, ssrc := some 5, name := [66] }
        ⟨1, 5004⟩).state.rinfo2 = Stream.ConnState.rinfo2 {} ∧
      Stream.StreamEvent.connected ∈
        (Stream.handleInvitationAccepted {}
          { command := some .invitation_accepted, ssrc := some 5, name := [66] }
          ⟨1, 5004⟩).events) := by
  constructor
  · exact claim_C4.1 { rinfo1 := some ⟨1, 5004⟩ }
      { command := some .invitation, ssrc := some 5, name := [66] }
      ⟨1, 5005⟩ rfl (by decide)
  · exact claim_C4.2 {}
      { command := some .invitation_accepted, ssrc := some 5, name := [66] }
      ⟨1, 5004⟩ rfl


/-! ## Helper lemmas about the lost-sequence push loop -/

lemma pushLoop_length (a b : Int) :
    (Stream.pushLoop a b).length = (b - a).toNat := by
  simp [Stream.pushLoop]

lemma pushLoop_mem (a b x : Int) :
    x ∈ Stream.pushLoop a b ↔ a ≤ x ∧ x < b := by
  simp only [Stream.pushLoop, List.mem_map, List.mem_range]
  constructor
  · rintro ⟨i, hi, rfl⟩
    omega
  · intro hx
    exact ⟨(x - a).toNat, by omega, by omega⟩

lemma pushLoop_pairwise (a b : Int) :
    (Stream.pushLoop a b).Pairwise (· < ·) := by
  refine List.Pairwise.map _ (fun i j h => add_lt_add_left (by exact_mod_cast h) a) ?_
  exact List.pairwise_lt_range _

/-- C6: for a stream that has already received a packet
(`firstReceivedSequenceNumber` not -1), handling a MIDI message whose
sequence number exceeds `lastReceivedSequenceNumber` by more than 1 appends
exactly the sequence numbers strictly between the two, in increasing order,
to `lostSequenceNumbers` (their count is the gap minus one), and overwrites
`lastReceivedSequenceNumber`. -/
theorem claim_C6 (st : Stream.RecvState) (seq : Int)
    (hfirst : st.firstReceivedSequenceNumber ≠ -1)
    (hgap : st.lastReceivedSequenceNumber + 1 < seq) :
    (Stream.handleMidiMessage st seq).lostSequenceNumbers =
      st.lostSequenceNumbers ++
        Stream.pushLoop (st.lastReceivedSequenceNumber + 1) seq ∧
    (Stream.pushLoop (st.lastReceivedSequenceNumber + 1) seq).length =
      (seq - st.lastReceivedSequenceNumber - 1).toNat ∧
    (∀ x : Int, x ∈ Stream.pushLoop (st.lastReceivedSequenceNumber + 1) seq ↔
      st.lastReceivedSequenceNumber < x ∧ x < seq) ∧
    (Stream.pushLoop (st.lastReceivedSequenceNumber + 1) seq).Pairwise (· < ·) ∧
    (Stream.handleMidiMessage st seq).lastReceivedSequenceNumber = seq := by
  refine ⟨?_, ?_, ?_, pushLoop_pairwise _ _, ?_⟩
  · simp [Stream.handleMidiMessage, hfirst]
  · rw [pushLoop_length]
    omega
  · intro x
    rw [pushLoop_mem]
    omega
  · simp [Stream.handleMidiMessage, hfirst]

/-- C6 witness: the spec scenario — after receiving sequence numbers 10, 11
and 15 the lost list is exactly [12, 13, 14]. -/
theorem claim_C6_witness :
    (Stream.handleMidiMessage
        (Stream.handleMidiMessage (Stream.handleMidiMessage {} 10) 11)
        15).lostSequenceNumbers = [12, 13, 14] ∧
    (Stream.handleMidiMessage
        (Stream.handleMidiMessage (Stream.handleMidiMessage {} 10) 11)
        15).lastReceivedSequenceNumber = 15 := by
  have h := claim_C6 (Stream.handleMidiMessage (Stream.handleMidiMessage {} 10) 11)
    15 (by decide) (by decide)
  refine ⟨?_, h.2.2.2.2⟩
  rw [h.1]
  decide

/-- C7 counterexample: the claim says `sendReceiverFeedback` resets
`lostSequenceNumbers` to the empty list.  On a state whose lost list is
[12, 13, 14] the method leaves the list untouched: Stream.js lines 444-454
contain no assignment to `lostSequenceNumbers`, and no other method resets
it after its initialisation. -/
theorem claim_C7_counterexample :
    (Stream.sendReceiverFeedback
        { firstReceivedSequenceNumber := 10, lastReceivedSequenceNumber := 15,
          lostSequenceNumbers := [12, 13, 14] } 1).1.lostSequenceNumbers =
      [12, 13, 14] ∧
    (Stream.sendReceiverFeedback
        { firstReceivedSequenceNumber := 10, lastReceivedSequenceNumber := 15,
          lostSequenceNumbers := [12, 13, 14] } 1).1.lostSequenceNumbers ≠ [] :=
  ⟨rfl, by decide⟩

/-- C7 amended: `sendReceiverFeedback` sends a `receiver_feedback` control
message whose `sequenceNumber` equals `lastReceivedSequenceNumber` and whose
`ssrc` is the session SSRC, but it does NOT reset `lostSequenceNumbers`:
the stream state is returned entirely unchanged. -/
theorem claim_C7 (st : Stream.RecvState) (sessionSsrc : Nat) :
    (Stream.sendReceiverFeedback st sessionSsrc).2.sequenceNumber =
      st.lastReceivedSequenceNumber ∧
    (Stream.sendReceiverFeedback st sessionSsrc).2.ssrc = sessionSsrc ∧
    (Stream.sendReceiverFeedback st sessionSsrc).1 = st :=
  ⟨rfl, rfl, rfl⟩

/-- C10: if a stream that has already received a packet handles a MIDI
message whose sequence number is at most `lastReceivedSequenceNumber` (as
after a 16-bit wrap), nothing is appended to `lostSequenceNumbers` and
`lastReceivedSequenceNumber` is overwritten with the new, smaller value:
the comparison is plain integer order, not order modulo `2 ^ 16`. -/
theorem claim_C10 (st : Stream.RecvState) (seq : Int)
    (hfirst : st.firstReceivedSequenceNumber ≠ -1)
    (hle : seq ≤ st.lastReceivedSequenceNumber) :
    (Stream.handleMidiMessage st seq).lostSequenceNumbers =
      st.lostSequenceNumbers ∧
    (Stream.handleMidiMessage st seq).lastReceivedSequenceNumber = seq := by
  have hnil : Stream.pushLoop (st.lastReceivedSequenceNumber + 1) seq = [] := by
    have hz : (seq - (st.lastReceivedSequenceNumber + 1)).toNat = 0 := by omega
    simp [Stream.pushLoop, hz]
  constructor
  · simp [Stream.handleMidiMessage, hfirst, hnil]
  · simp [Stream.handleMidiMessage, hfirst]

/-- C10 witness: a stream at `lastReceivedSequenceNumber = 65535` receiving
the wrapped sequence number 0 appends nothing and overwrites the counter. -/
theorem claim_C10_witness :
    (Stream.handleMidiMessage
        { firstReceivedSequenceNumber := 10, lastReceivedSequenceNumber := 65535,
          lostSequenceNumbers := [7] } 0).lostSequenceNumbers = [7] ∧
    (Stream.handleMidiMessage
        { firstReceivedSequenceNumber := 10, lastReceivedSequenceNumber := 65535,
          lostSequenceNumbers := [7] } 0).lastReceivedSequenceNumber = 0 :=
  claim_C10
    { firstReceivedSequenceNumber := 10, lastReceivedSequenceNumber := 65535,
      lostSequenceNumbers := [7] } 0 (by decide) (by decide)

/-! ## Helper lemmas about the delta-time bytes -/

lemma lor_contbit (m : Nat) (h : m < 128) : 128 ||| m = 128 + m := by
  interval_cases m <;> rfl

lemma mask7_lt (x : Nat) : 0x7f &&& x < 0x80 :=
  lt_of_le_of_lt Nat.and_le_left (by norm_num)

lemma contByte_ge (x : Nat) : 0x80 ≤ 0x80 ||| (0x7f &&& x) := by
  rw [lor_contbit _ (mask7_lt x)]
  omega

/-- C8 counterexample: the claim says the encoder emits the minimum number
of 7-bit groups — one byte for every value up to 127.  The code compares
with the threshold `0x7f` instead of `0x80`, so the boundary value 127 is
encoded in two bytes, `[0x80, 0x7f]`, where one byte (`[0x7f]`) would be
minimal. -/
theorem claim_C8_counterexample :
    MidiMessage.encodeDeltaTime 127 = [0x80, 0x7f] ∧
    (MidiMessage.encodeDeltaTime 127).length ≠ 1 := by
  constructor <;> decide

/-- C8 amended: the encoder chooses the byte count by the thresholds
`0x7f`, `0x7f7f` and `0x7f7f7f` (not the powers of two `2^7`, `2^14`,
`2^21` that minimality would require): one byte for values below `0x7f`,
two below `0x7f7f`, three below `0x7f7f7f`, four otherwise.  The
continuation-bit half of the claim does hold: every byte before the last
has the high bit set and the final byte has it clear.  (`d < 2^31` keeps
the JavaScript 32-bit shifts equal to the natural-number shifts of the
model.) -/
theorem claim_C8 (d : Nat) (hd : d < 2 ^ 31) :
    (MidiMessage.encodeDeltaTime d).length =
      (if d < 0x7f then 1 else if d < 0x7f7f then 2
       else if d < 0x7f7f7f then 3 else 4) ∧
    (∀ b ∈ (MidiMessage.encodeDeltaTime d).dropLast, 0x80 ≤ b) ∧
    (MidiMessage.encodeDeltaTime d).getLastD 0 < 0x80 := by
  unfold MidiMessage.encodeDeltaTime
  split_ifs with h1 h2 h3 <;>
    refine ⟨by first | (simp; omega) | simp, ?_, ?_⟩ <;>
      simp [List.dropLast, List.getLastD] <;>
      first
        | omega
        | exact mask7_lt d
        | exact Nat.and_le_left
        | exact contByte_ge _
        | exact ⟨contByte_ge _, contByte_ge _⟩
        | exact ⟨contByte_ge _, contByte_ge _, contByte_ge _⟩

/-- C8 witness: the amended claim at the concrete delta time 300 (spec
scenario 3 uses 240; 300 also sits in the two-byte band). -/
theorem claim_C8_witness :
    (MidiMessage.encodeDeltaTime 300).length =
      (if 300 < 0x7f then 1 else if 300 < 0x7f7f then 2
       else if 300 < 0x7f7f7f then 3 else 4) ∧
    (∀ b ∈ (MidiMessage.encodeDeltaTime 300).dropLast, 0x80 ≤ b) ∧
    (MidiMessage.encodeDeltaTime 300).getLastD 0 < 0x80 :=
  claim_C8 300 (by norm_num)

/-- C9 counterexample: the claim says a buffer with the `0xFFFF` magic but
an unknown command code decodes to a result tagged invalid
(`isValid = false`).  On the concrete buffer `FF FF 00 00` the parser leaves
`isValid = true`: only a wrong magic clears the flag, an unknown command
merely leaves `command` undefined. -/
theorem claim_C9_counterexample :
    ¬ ((ControlMessage.parseBuffer [0xFF, 0xFF, 0x00, 0x00]).isValid = false) ∧
    (ControlMessage.parseBuffer [0xFF, 0xFF, 0x00, 0x00]).command = none := by
  constructor <;> decide

/-- C9 amended: decoding a buffer that begins with the magic `0xFFFF` but
whose command code is unknown yields a result with `isValid = true` and an
undefined `command` (and undefined `ssrc` / `token`).  The session still
delivers it to no stream: the lookup compares stream SSRCs and tokens
against the undefined message fields and cannot match, and since the
command is not `invitation` no stream is created either — the datagram is
dropped silently, just not via the invalid tag. -/
theorem claim_C9 (buf : List Nat) (streams : List Session.StreamIds)
    (hstart : readUInt16BE buf 0 = 0xFFFF)
    (hcmd : ControlMessage.byteToCommand (readUInt16BE buf 2) = none) :
    (ControlMessage.parseBuffer buf).isValid = true ∧
    (ControlMessage.parseBuffer buf).command = none ∧
    Session.dispatchControl streams (ControlMessage.parseBuffer buf) =
      .dropped := by
  have hparse : ControlMessage.parseBuffer buf =
      { start := 0xFFFF, command := none } := by
    unfold ControlMessage.parseBuffer
    rw [hstart]
    simp [hcmd]
  refine ⟨by rw [hparse], by rw [hparse], ?_⟩
  rw [hparse]
  unfold Session.dispatchControl
  have hfind : (streams.find? fun s =>
      Session.ctrlMatches s { start := 0xFFFF, command := none }) = none := by
    rw [List.find?_eq_none]
    intro s _
    simp [Session.ctrlMatches]
  rw [hfind]
  simp

/-- C9 witness: the buffer `FF FF 00 00` against a session holding one
stream with SSRC 5 and token 6 parses as valid-but-unknown and is delivered
to no stream. -/
theorem claim_C9_witness :
    (ControlMessage.parseBuffer [0xFF, 0xFF, 0x00, 0x00]).isValid = true ∧
    (ControlMessage.parseBuffer [0xFF, 0xFF, 0x00, 0x00]).command = none ∧
    Session.dispatchControl [{ ssrc := some 5, token := some 6 }]
      (ControlMessage.parseBuffer [0xFF, 0xFF, 0x00, 0x00]) = .dropped :=
  claim_C9 [0xFF, 0xFF, 0x00, 0x00] [{ ssrc := some 5, token := some 6 }]
    rfl rfl

/-! ## Helper lemmas for reading back generated control buffers -/

lemma read16_at0 (x0 x1 : Nat) (l : List Nat) :
    readUInt16BE (x0 :: x1 :: l) 0 = 256 * x0 + x1 := rfl

lemma read16_at2 (x0 x1 x2 x3 : Nat) (l : List Nat) :
    readUInt16BE (x0 :: x1 :: x2 :: x3 :: l) 2 = 256 * x2 + x3 := rfl

lemma read32_at4 (x0 x1 x2 x3 y0 y1 y2 y3 : Nat) (l : List Nat) :
    readUInt32BE (x0 :: x1 :: x2 :: x3 :: y0 :: y1 :: y2 :: y3 :: l) 4 =
      16777216 * y0 + 65536 * y1 + 256 * y2 + y3 := rfl

lemma read32_at8 (x0 x1 x2 x3 x4 x5 x6 x7 y0 y1 y2 y3 : Nat) (l : List Nat) :
    readUInt32BE (x0 :: x1 :: x2 :: x3 :: x4 :: x5 :: x6 :: x7 ::
      y0 :: y1 :: y2 :: y3 :: l) 8 =
      16777216 * y0 + 65536 * y1 + 256 * y2 + y3 := rfl

lemma read32_at12 (x0 x1 x2 x3 x4 x5 x6 x7 x8 x9 x10 x11 y0 y1 y2 y3 : Nat)
    (l : List Nat) :
    readUInt32BE (x0 :: x1 :: x2 :: x3 :: x4 :: x5 :: x6 :: x7 :: x8 :: x9 ::
      x10 :: x11 :: y0 :: y1 :: y2 :: y3 :: l) 12 =
      16777216 * y0 + 65536 * y1 + 256 * y2 + y3 := rfl

lemma drop16_cons (x0 x1 x2 x3 x4 x5 x6 x7 x8 x9 x10 x11 x12 x13 x14 x15 : Nat)
    (l : List Nat) :
    List.drop 16 (x0 :: x1 :: x2 :: x3 :: x4 :: x5 :: x6 :: x7 :: x8 :: x9 ::
      x10 :: x11 :: x12 :: x13 :: x14 :: x15 :: l) = l := rfl

lemma read8_at8 (x0 x1 x2 x3 x4 x5 x6 x7 x8 : Nat) (l : List Nat) :
    readUInt8 (x0 :: x1 :: x2 :: x3 :: x4 :: x5 :: x6 :: x7 :: x8 :: l) 8 = x8 := rfl

lemma read8_at9 (x0 x1 x2 x3 x4 x5 x6 x7 x8 x9 : Nat) (l : List Nat) :
    readUInt8 (x0 :: x1 :: x2 :: x3 :: x4 :: x5 :: x6 :: x7 :: x8 :: x9 :: l) 9 =
      x9 := rfl

lemma read16_at8 (x0 x1 x2 x3 x4 x5 x6 x7 x8 x9 : Nat) (l : List Nat) :
    readUInt16BE (x0 :: x1 :: x2 :: x3 :: x4 :: x5 :: x6 :: x7 :: x8 :: x9 :: l)
      8 = 256 * x8 + x9 := rfl

lemma read16_at10 (x0 x1 x2 x3 x4 x5 x6 x7 x8 x9 x10 x11 : Nat) (l : List Nat) :
    readUInt16BE (x0 :: x1 :: x2 :: x3 :: x4 :: x5 :: x6 :: x7 :: x8 :: x9 ::
      x10 :: x11 :: l) 10 = 256 * x10 + x11 := rfl

lemma slice12_20 (x0 x1 x2 x3 x4 x5 x6 x7 x8 x9 x10 x11 : Nat) (l : List Nat) :
    bufSlice (x0 :: x1 :: x2 :: x3 :: x4 :: x5 :: x6 :: x7 :: x8 :: x9 ::
      x10 :: x11 :: l) 12 20 = l.take 8 := rfl

lemma slice20_28 (x0 x1 x2 x3 x4 x5 x6 x7 x8 x9 x10 x11 : Nat) (l : List Nat) :
    bufSlice (x0 :: x1 :: x2 :: x3 :: x4 :: x5 :: x6 :: x7 :: x8 :: x9 ::
      x10 :: x11 :: l) 20 28 = (l.drop 8).take 8 := rfl

lemma slice28_36 (x0 x1 x2 x3 x4 x5 x6 x7 x8 x9 x10 x11 : Nat) (l : List Nat) :
    bufSlice (x0 :: x1 :: x2 :: x3 :: x4 :: x5 :: x6 :: x7 :: x8 :: x9 ::
      x10 :: x11 :: l) 28 36 = (l.drop 16).take 8 := rfl

lemma copyTS_of_length {l : List Nat} (h : l.length = 8) :
    ControlMessage.copyTS l = l := by
  have ht : l.take 8 = l := List.take_of_length_le (by omega)
  simp [ControlMessage.copyTS, ht, h]

/-- C5 counterexample: the claim says decoding an encoded control message
restores every field, including the name string, exactly.  For the concrete
invitation with name byte `[65]` the decoder returns name `[65, 0]`: the
encoder writes a NUL terminator and the parser reads the buffer to its end,
so the terminator comes back as part of the name. -/
theorem claim_C5_counterexample :
    (ControlMessage.parseBuffer (ControlMessage.generateBuffer
      { command := some .invitation, token := some 5, ssrc := some 6,
        name := [65] })).name = [65, 0] ∧
    (ControlMessage.parseBuffer (ControlMessage.generateBuffer
      { command := some .invitation, token := some 5, ssrc := some 6,
        name := [65] })).name ≠ [65] := by
  constructor <;> decide

/-- C5 amended: for the four name-carrying commands (invitation,
invitation_accepted, invitation_rejected, end) decoding the generated
buffer restores `version`, `token` and `ssrc` exactly but returns the name
with one trailing NUL byte appended; synchronization and receiver_feedback
messages are restored field-for-field exactly (for in-range fields —
`padding` below `2 ^ 24`, eight-byte timestamps); and
`bitrate_receive_limit`, though a known command, has no `generateBuffer`
case at all: it produces the empty buffer, so no round trip exists for
it. -/
theorem claim_C5 :
    (∀ (c : ControlMessage.Command) (ver tok ssrc : Nat) (name : List Nat),
      (c = .invitation ∨ c = .invitation_accepted ∨
        c = .invitation_rejected ∨ c = .endStream) →
      ver < 2 ^ 32 → tok < 2 ^ 32 → ssrc < 2 ^ 32 →
      ControlMessage.parseBuffer (ControlMessage.generateBuffer
        { command := some c, version := ver, token := some tok,
          ssrc := some ssrc, name := name }) =
        { command := some c, version := ver, token := some tok,
          ssrc := some ssrc, name := name ++ [0] }) ∧
    (∀ (ssrc cnt pad : Nat) (ts1 ts2 ts3 : List Nat),
      ssrc < 2 ^ 32 → cnt < 256 → pad < 2 ^ 24 →
      ts1.length = 8 → ts2.length = 8 → ts3.length = 8 →
      ControlMessage.parseBuffer (ControlMessage.generateBuffer
        { command := some .synchronization, ssrc := some ssrc,
          count := some cnt, padding := some pad, timestamp1 := ts1,
          timestamp2 := ts2, timestamp3 := ts3 }) =
        { command := some .synchronization, ssrc := some ssrc,
          count := some cnt, padding := some pad, timestamp1 := ts1,
          timestamp2 := ts2, timestamp3 := ts3 }) ∧
    (∀ ssrc seq : Nat, ssrc < 2 ^ 32 → seq < 2 ^ 16 →
      ControlMessage.parseBuffer (ControlMessage.generateBuffer
        { command := some .receiver_feedback, ssrc := some ssrc,
          sequenceNumber := some seq }) =
        { command := some .receiver_feedback, ssrc := some ssrc,
          sequenceNumber := some seq }) ∧
    (∀ m : ControlMessage.Msg, m.command = some .bitrate_receive_limit →
      ControlMessage.generateBuffer m = []) := by
  refine ⟨?_, ?_, ?_, ?_⟩
  · rintro c ver tok ssrc name (rfl | rfl | rfl | rfl) hver htok hssrc <;>
      (simp only [ControlMessage.generateBuffer,
        ControlMessage.invitationFamilyBuffer, ControlMessage.commandToByte,
        u16BE, u32BE, List.cons_append, List.nil_append]
       norm_num
       simp only [ControlMessage.parseBuffer, read16_at0, read16_at2,
         read32_at4, read32_at8, read32_at12, drop16_cons]
       norm_num [ControlMessage.byteToCommand]
       refine ⟨?_, ?_, ?_⟩ <;> omega)
  · intro ssrc cnt pad ts1 ts2 ts3 hssrc hcnt hpad h1 h2 h3
    have hd16 : (ts1 ++ (ts2 ++ ts3)).drop 16 = ts3 := by
      have h88 : (16 : Nat) = 8 + 8 := by norm_num
      rw [h88, ← List.drop_drop, List.drop_left' h1, List.drop_left' h2]
    simp only [ControlMessage.generateBuffer, ControlMessage.commandToByte,
      copyTS_of_length h1, copyTS_of_length h2, copyTS_of_length h3,
      u16BE, u32BE, List.cons_append, List.nil_append]
    norm_num
    simp only [ControlMessage.parseBuffer, read16_at0, read16_at2, read32_at4,
      read8_at8, read8_at9, read16_at10, slice12_20, slice20_28, slice28_36,
      List.take_left' h1, List.drop_left' h1, List.take_left' h2, hd16,
      List.take_of_length_le (le_of_eq h3)]
    norm_num [ControlMessage.byteToCommand]
    refine ⟨?_, ?_⟩ <;> omega
  · intro ssrc seq hssrc hseq
    simp only [ControlMessage.generateBuffer, ControlMessage.commandToByte,
      u16BE, u32BE, List.cons_append, List.nil_append]
    norm_num
    simp only [ControlMessage.parseBuffer, read16_at0, read16_at2, read32_at4,
      read16_at8]
    norm_num [ControlMessage.byteToCommand]
    refine ⟨?_, ?_⟩ <;> omega
  · intro m hm
    simp [ControlMessage.generateBuffer, hm]

/-- C5 witness: the four parts of the amended claim at concrete messages —
an `end` message with name byte 66, a synchronization message with
timestamps 1000 / 5000 / 1010, a receiver_feedback at sequence 1234, and a
`bitrate_receive_limit` message. -/
theorem claim_C5_witness :
    ControlMessage.parseBuffer (ControlMessage.generateBuffer
      { command := some .endStream, version := 2, token := some 5,
        ssrc := some 6, name := [66] }) =
      { command := some .endStream, version := 2, token := some 5,
        ssrc := some 6, name := [66] ++ [0] } ∧
    ControlMessage.parseBuffer (ControlMessage.generateBuffer
      { command := some .synchronization, ssrc := some 7, count := some 1,
        padding := some 300, timestamp1 := [0,0,0,0,0,0,3,232],
        timestamp2 := [0,0,0,0,0,0,19,136],
        timestamp3 := [0,0,0,0,0,0,3,242] }) =
      { command := some .synchronization, ssrc := some 7, count := some 1,
        padding := some 300, timestamp1 := [0,0,0,0,0,0,3,232],
        timestamp2 := [0,0,0,0,0,0,19,136],
        timestamp3 := [0,0,0,0,0,0,3,242] } ∧
    ControlMessage.parseBuffer (ControlMessage.generateBuffer
      { command := some .receiver_feedback, ssrc := some 7,
        sequenceNumber := some 1234 }) =
      { command := some .receiver_feedback, ssrc := some 7,
        sequenceNumber := some 1234 } ∧
    ControlMessage.generateBuffer
      { command := some .bitrate_receive_limit, ssrc := some 7 } = [] :=
  ⟨claim_C5.1 .endStream 2 5 6 [66] (by simp) (by norm_num) (by norm_num)
      (by norm_num),
   claim_C5.2.1 7 1 300 [0,0,0,0,0,0,3,232] [0,0,0,0,0,0,19,136]
      [0,0,0,0,0,0,3,242] (by norm_num) (by norm_num) (by norm_num) rfl rfl rfl,
   claim_C5.2.2.1 7 1234 (by norm_num) (by norm_num),
   claim_C5.2.2.2 { command := some .bitrate_receive_limit, ssrc := some 7 }
      rfl⟩
